import Mathlib

/-!
# Verification of the HRS3300 heart-rate sensor driver

Shallow embedding of the driver in `src/lib.rs` and `src/definitions.rs`.
The Rust driver owns an I2C port; here the port (and the device behind it)
is modelled as an explicit state value of type `D` threaded through each
operation, together with a `Transport D E` record supplying the two bus
primitives (`write`, `write_read`) that the `embedded_hal` traits provide.
The driver struct itself (`HRS3300`) keeps the remaining fields of the Rust
struct: device address, selected ADC resolution, and the derived mask.
Machine integers (`u8`, `u32`) are modelled as `Nat`, with `% 256`
truncation applied where a `u8` is produced by the device model.
Fallible operations return `Except`; a Rust `&mut self` method that can
mutate driver state before failing returns the updated state alongside the
`Except` result, mirroring the fact that `?` returns early while `self`
keeps any mutation already performed.
-/

/-- ADC resolution selection, from `definitions.rs` (`AdcResolution`). -/
inductive AdcResolution where
  | Bits8
  | Bits9
  | Bits10
  | Bits11
  | Bits12
  | Bits13
  | Bits14
  | Bits15
  | Bits16
  | Bits17
  | Bits18
deriving DecidableEq, Repr

/-- The `repr(u8)` discriminant of `AdcResolution` (`Bits8 = 0` … `Bits18 = 10`). -/
def AdcResolution.code : AdcResolution → Nat
  | .Bits8 => 0
  | .Bits9 => 1
  | .Bits10 => 2
  | .Bits11 => 3
  | .Bits12 => 4
  | .Bits13 => 5
  | .Bits14 => 6
  | .Bits15 => 7
  | .Bits16 => 8
  | .Bits17 => 9
  | .Bits18 => 10

/-- Device registers, from `definitions.rs` (`Register`). -/
inductive Register where
  | ID
  | ENABLE
  | C1DATAM
  | C0DATAM
  | C0DATAH
  | PDRIVER
  | C1DATAH
  | C1DATAL
  | C0DATAL
  | RES
  | HGAIN
deriving DecidableEq, Repr

/-- The `repr(u8)` register addresses from `definitions.rs`. -/
def Register.addr : Register → Nat
  | .ID => 0x00
  | .ENABLE => 0x01
  | .C1DATAM => 0x08
  | .C0DATAM => 0x09
  | .C0DATAH => 0x0A
  | .PDRIVER => 0x0C
  | .C1DATAH => 0x0D
  | .C1DATAL => 0x0E
  | .C0DATAL => 0x0F
  | .RES => 0x16
  | .HGAIN => 0x17

/-- Embeds `EnableRegField::HEN` (HRS sensor enable). -/
def EnableRegField.HEN : Nat := 1 <<< 7

/-- Embeds `EnableRegField::HWT` (HRS wait time). -/
def EnableRegField.HWT : Nat := 0b111 <<< 4

/-- Embeds `EnableRegField::PDRIVE1` (LED drive current setup). -/
def EnableRegField.PDRIVE1 : Nat := 1 <<< 3

/-- Embeds `PDriverRegField::PDRIVE0` (LED drive current configuration). -/
def PDriverRegField.PDRIVE0 : Nat := 1 <<< 6

/-- Embeds `PDriverRegField::PON` (LED OSC enable). -/
def PDriverRegField.PON : Nat := 1 <<< 5

/-- Errors of the crate (`Error<CommE>`): a wrapped transport error or a
device-identity mismatch. -/
inductive Error (CommE : Type) where
  | Comm (e : CommE)
  | DeviceId
deriving DecidableEq, Repr

/-- The bus transport capability consumed by the driver
(`embedded_hal::blocking::i2c::Write` + `WriteRead`).  `D` is the state of
the port/device, `E` the transport's error type.  Both primitives return
the (possibly updated) port state even on failure, since a failed Rust
call still leaves `self.i2c_port` in place. -/
structure Transport (D : Type) (E : Type) where
  write : D → Nat → List Nat → D × Except E Unit
  write_read : D → Nat → List Nat → Nat → D × Except E (List Nat)

/-- The driver struct (`HRS3300<I2C>`) minus the owned port, which is the
separate `D` value. -/
structure HRS3300 where
  address : Nat
  adc_resolution : AdcResolution
  resolution_mask : Nat
deriving DecidableEq, Repr

/-- Embeds `HRS3300::DEFAULT_DEVICE_ADDRESS`. -/
def HRS3300.DEFAULT_DEVICE_ADDRESS : Nat := 0x44

/-- Embeds `HRS3300::DEFAULT_DEVICE_ID`. -/
def HRS3300.DEFAULT_DEVICE_ID : Nat := 0x21

/-- Embeds `HRS3300::RESERVED_RESOLUTION_BITS`. -/
def HRS3300.RESERVED_RESOLUTION_BITS : Nat := 0x60

/-- Embeds `HRS3300::RESERVED_ENABLE_BITS`. -/
def HRS3300.RESERVED_ENABLE_BITS : Nat := 0x60

/-- Embeds `HRS3300::RESERVED_PDRIVE_BITS`. -/
def HRS3300.RESERVED_PDRIVE_BITS : Nat := 0x08

/-- Embeds `HRS3300::new`: note `resolution_mask` starts at `0`, whatever the
selected resolution. -/
def HRS3300.new (address : Nat) (adc_resolution : AdcResolution) : HRS3300 :=
  { address := address, adc_resolution := adc_resolution, resolution_mask := 0 }

/-- Embeds `HRS3300::default`. -/
def HRS3300.defaultDrv : HRS3300 :=
  HRS3300.new HRS3300.DEFAULT_DEVICE_ADDRESS AdcResolution.Bits14

/-- Embeds `SAMPLE_BLOCK_LEN`. -/
def SAMPLE_BLOCK_LEN : Nat := 7

variable {D E : Type}

/-- Embeds `HRS3300::write_register`: one bus write of `[register, value]`,
transport errors wrapped as `Error::Comm`. -/
def HRS3300.write_register (T : Transport D E) (s : HRS3300) (d : D)
    (register : Register) (value : Nat) : D × Except (Error E) Unit :=
  let r := T.write d s.address [register.addr, value]
  (r.1, r.2.mapError Error.Comm)

/-- Embeds `HRS3300::read_registers`: one bus write-then-read starting at `start`,
filling a buffer of length `len`, transport errors wrapped as `Error::Comm`. -/
def HRS3300.read_registers (T : Transport D E) (s : HRS3300) (d : D)
    (start : Register) (len : Nat) : D × Except (Error E) (List Nat) :=
  let r := T.write_read d s.address [start.addr] len
  (r.1, r.2.mapError Error.Comm)

/-- Embeds `HRS3300::read_register`: single-byte read (buffer `[0]`, result `data[0]`). -/
def HRS3300.read_register (T : Transport D E) (s : HRS3300) (d : D)
    (register : Register) : D × Except (Error E) Nat :=
  let r := HRS3300.read_registers T s d register 1
  (r.1, r.2.map fun data => data.getD 0 0)

/-- Embeds `HRS3300::get_device_id`. -/
def HRS3300.get_device_id (T : Transport D E) (s : HRS3300) (d : D) :
    D × Except (Error E) Nat :=
  HRS3300.read_register T s d Register.ID

/-- Embeds `HRS3300::set_adc_resolution`: mutates the stored resolution and the
derived mask, then writes the RES register.  The driver-state mutation
happens before (and regardless of) the outcome of the write. -/
def HRS3300.set_adc_resolution (T : Transport D E) (s : HRS3300) (d : D)
    (resolution : AdcResolution) : HRS3300 × (D × Except (Error E) Unit) :=
  let s' : HRS3300 :=
    { s with
      adc_resolution := resolution,
      resolution_mask := (1 <<< (8 + resolution.code)) - 1 }
  let resolution_reg_val := s'.adc_resolution.code ||| HRS3300.RESERVED_RESOLUTION_BITS
  (s', HRS3300.write_register T s' d Register.RES resolution_reg_val)

/-- Embeds `HRS3300::init`: identity check, then PDRIVER, RES (via
`set_adc_resolution`), HGAIN, ENABLE writes, each step short-circuiting. -/
def HRS3300.init (T : Transport D E) (s : HRS3300) (d : D) :
    HRS3300 × (D × Except (Error E) Unit) :=
  match HRS3300.get_device_id T s d with
  | (d1, .error e) => (s, (d1, .error e))
  | (d1, .ok device_id) =>
    if device_id ≠ HRS3300.DEFAULT_DEVICE_ID then
      (s, (d1, .error Error.DeviceId))
    else
      let pdrive_reg_val :=
        (PDriverRegField.PDRIVE0 ||| PDriverRegField.PON) ||| HRS3300.RESERVED_PDRIVE_BITS
      match HRS3300.write_register T s d1 Register.PDRIVER pdrive_reg_val with
      | (d2, .error e) => (s, (d2, .error e))
      | (d2, .ok _) =>
        match HRS3300.set_adc_resolution T s d2 s.adc_resolution with
        | (s3, (d3, .error e)) => (s3, (d3, .error e))
        | (s3, (d3, .ok _)) =>
          match HRS3300.write_register T s3 d3 Register.HGAIN 0x10 with
          | (d4, .error e) => (s3, (d4, .error e))
          | (d4, .ok _) =>
            let enable_reg_val :=
              (EnableRegField.HEN ||| EnableRegField.PDRIVE1) ||| HRS3300.RESERVED_ENABLE_BITS
            (s3, HRS3300.write_register T s3 d4 Register.ENABLE enable_reg_val)

/-- Embeds `HRS3300::enable`: writes fixed values (reserved bits with the HEN /
PON bit set or cleared) to ENABLE then PDRIVER.  `!x` on a `u8` is
complement within 8 bits, modelled as `0xFF ^^^ x`. -/
def HRS3300.enable (T : Transport D E) (s : HRS3300) (d : D) (en : Bool) :
    D × Except (Error E) Unit :=
  let enable_val := HRS3300.RESERVED_ENABLE_BITS
  let enable_val :=
    if en then enable_val ||| EnableRegField.HEN
    else enable_val &&& (0xFF ^^^ EnableRegField.HEN)
  match HRS3300.write_register T s d Register.ENABLE enable_val with
  | (d1, .error e) => (d1, .error e)
  | (d1, .ok _) =>
    let pdrive_val := HRS3300.RESERVED_PDRIVE_BITS
    let pdrive_val :=
      if en then pdrive_val ||| PDriverRegField.PON
      else pdrive_val &&& (0xFF ^^^ PDriverRegField.PON)
    HRS3300.write_register T s d1 Register.PDRIVER pdrive_val

/-- Embeds `HRS3300::read_sample_block`: block read of `SAMPLE_BLOCK_LEN` bytes
starting at C1DATAM. -/
def HRS3300.read_sample_block (T : Transport D E) (s : HRS3300) (d : D) :
    D × Except (Error E) (List Nat) :=
  HRS3300.read_registers T s d Register.C1DATAM SAMPLE_BLOCK_LEN

/-- The C1 (ambient light) assembly of `HRS3300::read_raw_sample`, as the
code computes it:
`c1 = (block[0] << 3) | ((block[4] & 0x3F) << 11) | (block[5] & 0x07)`,
then `c1 &= resolution_mask`. -/
def decode_c1 (block : List Nat) (mask : Nat) : Nat :=
  (((block.getD 0 0) <<< 3) |||
   (((block.getD 4 0) &&& 0x3F) <<< 11) |||
   ((block.getD 5 0) &&& 0x07)) &&& mask

/-- The C0 (reflectance / HRS) assembly of `HRS3300::read_raw_sample`, as
the code computes it:
`c0 = (block[1] << 8) | ((block[2] & 0x0F) << 4) | ((block[6] & 0x30) << 16) | (block[6] & 0x0F)`,
then `c0 &= resolution_mask`. -/
def decode_c0 (block : List Nat) (mask : Nat) : Nat :=
  (((block.getD 1 0) <<< 8) |||
   (((block.getD 2 0) &&& 0x0F) <<< 4) |||
   (((block.getD 6 0) &&& 0x30) <<< 16) |||
   ((block.getD 6 0) &&& 0x0F)) &&& mask

/-- Modelled from the spec: the ambient-light (C1) assembly as the spec
words it — "bits 6:0 of byte offset 4 (shifted left 11, giving bits 17:11)";
bits 6:0 is the mask `0x7F`.  This is the datasheet layout the code's own
comment (`6:0 -> C1DATA[17:11]`) also describes. -/
def decode_c1_spec (block : List Nat) (mask : Nat) : Nat :=
  (((block.getD 0 0) <<< 3) |||
   (((block.getD 4 0) &&& 0x7F) <<< 11) |||
   ((block.getD 5 0) &&& 0x07)) &&& mask

/-- Embeds `HRS3300::read_raw_sample`: block read then decode; returns
`(c0, c1) = (reflectance, ambient)`. -/
def HRS3300.read_raw_sample (T : Transport D E) (s : HRS3300) (d : D) :
    D × Except (Error E) (Nat × Nat) :=
  match HRS3300.read_sample_block T s d with
  | (d1, .error e) => (d1, .error e)
  | (d1, .ok block) =>
    (d1, .ok (decode_c0 block s.resolution_mask, decode_c1 block s.resolution_mask))

/-- Embeds `HRS3300::sample_one`: reads a raw sample, discards it, yields no
heart-rate estimate. -/
def HRS3300.sample_one (T : Transport D E) (s : HRS3300) (d : D) :
    D × Except (Error E) (Option Nat) :=
  match HRS3300.read_raw_sample T s d with
  | (d1, .error e) => (d1, .error e)
  | (d1, .ok _) => (d1, .ok none)

/-- One bus transaction, as recorded by the device model. -/
inductive Tx where
  | write (addr : Nat) (bytes : List Nat)
  | write_read (addr : Nat) (bytes : List Nat) (len : Nat)
deriving DecidableEq, Repr

/-- Functional model of the sensor chip on the bus: a register file
(`u8` values, kept `< 256` by the update/read functions) plus a log of
every successful bus transaction. -/
structure Device where
  regs : Nat → Nat
  log : List Tx

/-- Device semantics of a bus write: `[register, value]` sets that
register; the transaction is logged. -/
def Device.busWrite (d : Device) (addr : Nat) (bytes : List Nat) : Device :=
  let regs' :=
    match bytes with
    | [r, v] => fun x => if x = r then v % 256 else d.regs x
    | _ => d.regs
  { regs := regs', log := d.log ++ [Tx.write addr bytes] }

/-- Device semantics of a write-then-read: bytes are the registers from
the start address upward (the chip auto-increments); the transaction is
logged. -/
def Device.busRead (d : Device) (addr : Nat) (bytes : List Nat) (len : Nat) :
    Device × List Nat :=
  let start := bytes.getD 0 0
  ({ d with log := d.log ++ [Tx.write_read addr bytes len] },
   (List.range len).map fun i => d.regs (start + i) % 256)

/-- A transport over the device model that never fails. -/
def okT : Transport Device Empty where
  write d addr bytes := (d.busWrite addr bytes, .ok ())
  write_read d addr bytes len :=
    let r := d.busRead addr bytes len
    (r.1, .ok r.2)

/-- A transport over the device model that fails exactly on transaction
number `failAt` (0-based, counting attempts) with the transport-level
error value `e`; the attempt counter is the second component of the
state. -/
def faultyT (failAt : Nat) (e : Nat) : Transport (Device × Nat) Nat where
  write dn addr bytes :=
    if dn.2 = failAt then ((dn.1, dn.2 + 1), .error e)
    else ((dn.1.busWrite addr bytes, dn.2 + 1), .ok ())
  write_read dn addr bytes len :=
    if dn.2 = failAt then ((dn.1, dn.2 + 1), .error e)
    else
      let r := dn.1.busRead addr bytes len
      ((r.1, dn.2 + 1), .ok r.2)

/-- A device whose registers all read zero and whose log is empty. -/
def zeroDevice : Device := { regs := fun _ => 0, log := [] }

/-- A device exposing a given 7-byte sample block at the data registers
`0x08 …` (the block the driver reads), identity register reading `0x21`. -/
def blockDevice (block : List Nat) : Device :=
  { regs := fun r =>
      if r = 0 then HRS3300.DEFAULT_DEVICE_ID
      else if 8 ≤ r ∧ r < 8 + SAMPLE_BLOCK_LEN then block.getD (r - 8) 0
      else 0,
    log := [] }

/-- The driver-state invariant claimed by the spec: the stored mask always
matches the stored resolution. -/
def maskInvariant (s : HRS3300) : Prop :=
  s.resolution_mask = (1 <<< (8 + s.adc_resolution.code)) - 1

/-! ## Theorems -/

/-- C7: for the literal 7-byte sample block
`[0x00, 0x01, 0x0F, 0x00, 0x3F, 0x07, 0x3F]` and any driver state (hence
any configured resolution mask), `read_raw_sample` returns ambient
`C1 = 0x1F807 &&& resolution_mask` and reflectance
`C0 = 0x3001FF &&& resolution_mask`. -/
theorem c7_literal_block_decode (s : HRS3300) :
    (HRS3300.read_raw_sample okT s
        (blockDevice [0x00, 0x01, 0x0F, 0x00, 0x3F, 0x07, 0x3F])).2 =
      .ok (0x3001FF &&& s.resolution_mask, 0x1F807 &&& s.resolution_mask) := by
  simp [HRS3300.read_raw_sample, HRS3300.read_sample_block, HRS3300.read_registers, okT,
    Device.busRead, blockDevice, SAMPLE_BLOCK_LEN, List.range_succ, Register.addr,
    Except.mapError, decode_c0, decode_c1, Nat.reduceShiftLeft, Nat.reduceAnd, Nat.reduceOr]
  congr 1

/-- C10: on a freshly constructed driver (via `new`, hence also via
`default`), the stored `resolution_mask` is `0`, so `read_raw_sample`
returns `(0, 0)` whatever bytes the device holds. -/
theorem c10_fresh_driver_reads_zero (address : Nat) (res : AdcResolution) (d : Device) :
    (HRS3300.new address res).resolution_mask = 0 ∧
    HRS3300.defaultDrv = HRS3300.new HRS3300.DEFAULT_DEVICE_ADDRESS AdcResolution.Bits14 ∧
    (HRS3300.read_raw_sample okT (HRS3300.new address res) d).2 = .ok (0, 0) := by
  refine ⟨rfl, rfl, ?_⟩
  simp [HRS3300.read_raw_sample, HRS3300.read_sample_block, HRS3300.read_registers, okT,
    Device.busRead, HRS3300.new, Except.mapError, decode_c0, decode_c1]

/-- C3 counterexample: at construction (`HRS3300::default`, i.e. `new` with
14-bit resolution) the stored mask is `0`, not
`(1 <<< (8 + code)) - 1 = 0x3FFF`, so the claimed invariant does not hold
"from construction onward". -/
theorem c3_counterexample_fresh_state_violates_invariant :
    ¬ maskInvariant HRS3300.defaultDrv := by
  unfold maskInvariant
  decide

/-- C3 (amended): the invariant `resolution_mask = (1 <<< (8 + code)) - 1`
is established by every `set_adc_resolution` call (whether or not its
register write succeeds) and is preserved by `init`; at construction,
however, the stored mask is `0` until the first resolution flush. -/
theorem c3_amended_mask_invariant {D E : Type} (T : Transport D E) (s : HRS3300)
    (d : D) (res : AdcResolution) :
    maskInvariant (HRS3300.set_adc_resolution T s d res).1 ∧
    (maskInvariant s → maskInvariant (HRS3300.init T s d).1) := by
  constructor
  · rfl
  · intro h
    unfold HRS3300.init
    split
    · exact h
    · split
      · exact h
      · dsimp only
        split
        · exact h
        · split
          · next s3 d3 e heq =>
            have h1 : (HRS3300.set_adc_resolution T s _ s.adc_resolution).1 = s3 :=
              congrArg Prod.fst heq
            rw [← h1]
            rfl
          · next s3 d3 u heq =>
            have h1 : (HRS3300.set_adc_resolution T s _ s.adc_resolution).1 = s3 :=
              congrArg Prod.fst heq
            split
            · rw [← h1]
              rfl
            · dsimp only
              rw [← h1]
              rfl

/-- Witness for the amended C3 at concrete inputs. -/
theorem c3_amended_mask_invariant_witness :
    maskInvariant (HRS3300.set_adc_resolution okT ⟨0x44, .Bits8, 0xFF⟩ zeroDevice .Bits18).1 ∧
    maskInvariant (HRS3300.init okT ⟨0x44, .Bits8, 0xFF⟩ zeroDevice).1 :=
  ⟨(c3_amended_mask_invariant okT ⟨0x44, .Bits8, 0xFF⟩ zeroDevice .Bits18).1,
   (c3_amended_mask_invariant okT ⟨0x44, .Bits8, 0xFF⟩ zeroDevice .Bits18).2
     (by unfold maskInvariant; decide)⟩

/-- C9: `set_adc_resolution` updates the stored resolution and mask before
the register write, so when the write fails (transport fails on the very
first transaction) the returned driver state already carries the new
resolution and mask, and the error is `Comm` wrapping the transport
error. -/
theorem c9_set_adc_resolution_not_atomic (s : HRS3300) (d : Device)
    (res : AdcResolution) (e : Nat) :
    ((HRS3300.set_adc_resolution (faultyT 0 e) s (d, 0) res).1.adc_resolution = res) ∧
    ((HRS3300.set_adc_resolution (faultyT 0 e) s (d, 0) res).1.resolution_mask =
      (1 <<< (8 + res.code)) - 1) ∧
    ((HRS3300.set_adc_resolution (faultyT 0 e) s (d, 0) res).2.2 = .error (.Comm e)) := by
  refine ⟨rfl, rfl, ?_⟩
  simp [HRS3300.set_adc_resolution, HRS3300.write_register, faultyT, Except.mapError]

/-- C2 counterexample: with every device register initially `0x00`,
`enable(true)` then `enable(false)` leaves the ENABLE register at `0x60`,
so its non-target bits (everything but the HEN bit `0x80`) changed from
`0x00` to `0x60`: `enable` is not a read-modify-write and does not
preserve unrelated bits. -/
theorem c2_counterexample_enable_clobbers_bits :
    ((HRS3300.enable okT HRS3300.defaultDrv
        (HRS3300.enable okT HRS3300.defaultDrv zeroDevice true).1 false).1.regs
          Register.ENABLE.addr) &&& 0x7F ≠
      (zeroDevice.regs Register.ENABLE.addr) &&& 0x7F := by
  decide

/-- C2 (amended): `enable` performs no reads and no read-modify-write: it
writes fixed values built from the reserved-bit constants alone (ENABLE :=
`0xE0` on enable / `0x60` on disable; PDRIVER := `0x28` / `0x08`),
overwriting all prior bits; consequently `enable(true)` then
`enable(false)` leaves ENABLE = `0x60` and PDRIVER = `0x08` regardless of
the registers' pre-toggle values. -/
theorem c2_amended_enable_writes_fixed_values (s : HRS3300) (d : Device) :
    ((HRS3300.enable okT s ((HRS3300.enable okT s d true).1) false).1.regs
        Register.ENABLE.addr = 0x60) ∧
    ((HRS3300.enable okT s ((HRS3300.enable okT s d true).1) false).1.regs
        Register.PDRIVER.addr = 0x08) ∧
    ((HRS3300.enable okT s ((HRS3300.enable okT s d true).1) false).1.log =
      d.log ++
        [Tx.write s.address [Register.ENABLE.addr, 0xE0],
         Tx.write s.address [Register.PDRIVER.addr, 0x28],
         Tx.write s.address [Register.ENABLE.addr, 0x60],
         Tx.write s.address [Register.PDRIVER.addr, 0x08]]) ∧
    ((HRS3300.enable okT s ((HRS3300.enable okT s d true).1) false).2 = .ok ()) := by
  refine ⟨?_, ?_, ?_, ?_⟩ <;>
    simp [HRS3300.enable, HRS3300.write_register, okT, Device.busWrite, Register.addr,
      HRS3300.RESERVED_ENABLE_BITS, HRS3300.RESERVED_PDRIVE_BITS, EnableRegField.HEN,
      PDriverRegField.PON, Except.mapError] <;> decide

/-- C4: when the identity read succeeds but yields a byte other than
`0x21`, `init` returns the `DeviceId` error (a constructor distinct from
`Comm`), leaves the driver state untouched, and performs no register
writes: the device log gains only the single identity write-read. -/
theorem c4_init_rejects_wrong_identity (s : HRS3300) (d : Device)
    (h : d.regs 0 % 256 ≠ 0x21) :
    ((HRS3300.init okT s d).1 = s) ∧
    ((HRS3300.init okT s d).2.2 = .error Error.DeviceId) ∧
    ((HRS3300.init okT s d).2.1.log =
      d.log ++ [Tx.write_read s.address [Register.ID.addr] 1]) ∧
    (∀ (E' : Type) (e : E'), (Error.DeviceId : Error E') ≠ Error.Comm e) := by
  refine ⟨?_, ?_, ?_, fun E' e hne => by cases hne⟩ <;>
    simp [HRS3300.init, HRS3300.get_device_id, HRS3300.read_register,
      HRS3300.read_registers, okT, Device.busRead, Except.mapError, Except.map,
      List.range_succ, Register.addr, HRS3300.DEFAULT_DEVICE_ID, h]

/-- Witness for C4 at a concrete device whose identity register reads 0. -/
theorem c4_init_rejects_wrong_identity_witness :
    ((HRS3300.init okT HRS3300.defaultDrv zeroDevice).1 = HRS3300.defaultDrv) ∧
    ((HRS3300.init okT HRS3300.defaultDrv zeroDevice).2.2 = .error Error.DeviceId) ∧
    ((HRS3300.init okT HRS3300.defaultDrv zeroDevice).2.1.log =
      zeroDevice.log ++ [Tx.write_read HRS3300.defaultDrv.address [Register.ID.addr] 1]) ∧
    (∀ (E' : Type) (e : E'), (Error.DeviceId : Error E') ≠ Error.Comm e) :=
  c4_init_rejects_wrong_identity HRS3300.defaultDrv zeroDevice (by decide)

/-- C5: when the identity byte matches, `init` performs exactly five bus
transactions in order — identity read, PDRIVER write (`0x68`), RES write
(resolution code | `0x60`), HGAIN write (`0x10`), ENABLE write (`0xE8`,
last) — and succeeds; a transport failure at any step `k < 5` aborts after
exactly `k + 1` attempted transactions with an error. -/
theorem c5_init_sequence (s : HRS3300) (d : Device) (e : Nat)
    (h : d.regs 0 % 256 = 0x21) :
    ((HRS3300.init okT s d).2.1.log = d.log ++
      [Tx.write_read s.address [Register.ID.addr] 1,
       Tx.write s.address [Register.PDRIVER.addr, 0x68],
       Tx.write s.address [Register.RES.addr, s.adc_resolution.code ||| 0x60],
       Tx.write s.address [Register.HGAIN.addr, 0x10],
       Tx.write s.address [Register.ENABLE.addr, 0xE8]]) ∧
    ((HRS3300.init okT s d).2.2 = .ok ()) ∧
    (∀ failAt, failAt < 5 →
      ((HRS3300.init (faultyT failAt e) s (d, 0)).2.1.2 = failAt + 1) ∧
      ((HRS3300.init (faultyT failAt e) s (d, 0)).2.2 = .error (Error.Comm e))) := by
  refine ⟨?_, ?_, ?_⟩
  · simp [HRS3300.init, HRS3300.get_device_id, HRS3300.read_register,
      HRS3300.read_registers, HRS3300.write_register, HRS3300.set_adc_resolution,
      okT, Device.busRead, Device.busWrite, Except.mapError, Except.map,
      List.range_succ, Register.addr, HRS3300.DEFAULT_DEVICE_ID,
      HRS3300.RESERVED_RESOLUTION_BITS, HRS3300.RESERVED_PDRIVE_BITS,
      HRS3300.RESERVED_ENABLE_BITS, PDriverRegField.PDRIVE0, PDriverRegField.PON,
      EnableRegField.HEN, EnableRegField.PDRIVE1, h]
  · simp [HRS3300.init, HRS3300.get_device_id, HRS3300.read_register,
      HRS3300.read_registers, HRS3300.write_register, HRS3300.set_adc_resolution,
      okT, Device.busRead, Device.busWrite, Except.mapError, Except.map,
      List.range_succ, Register.addr, HRS3300.DEFAULT_DEVICE_ID, h]
  · intro failAt hf
    interval_cases failAt <;>
      refine ⟨?_, ?_⟩ <;>
        simp [HRS3300.init, HRS3300.get_device_id, HRS3300.read_register,
          HRS3300.read_registers, HRS3300.write_register, HRS3300.set_adc_resolution,
          faultyT, Device.busRead, Device.busWrite, Except.mapError, Except.map,
          List.range_succ, Register.addr, HRS3300.DEFAULT_DEVICE_ID, h]

/-- Witness for C5 at a concrete device whose identity register reads `0x21`. -/
theorem c5_init_sequence_witness :
    ((HRS3300.init okT HRS3300.defaultDrv (blockDevice [])).2.2 = .ok ()) ∧
    ((HRS3300.init (faultyT 2 9) HRS3300.defaultDrv (blockDevice [], 0)).2.2 =
      .error (Error.Comm 9)) :=
  ⟨(c5_init_sequence HRS3300.defaultDrv (blockDevice []) 9 (by decide)).2.1,
   ((c5_init_sequence HRS3300.defaultDrv (blockDevice []) 9 (by decide)).2.2 2
     (by decide)).2⟩

/-- C6: every transport failure surfaces as `Comm` wrapping the transport's
error value unmodified (`write_register` / `read_registers` over any
transport), and for each driver operation a failure on its `k`-th bus
transaction aborts the operation after exactly `k + 1` attempted
transactions (no retry, no further steps), returning `Comm e`. -/
theorem c6_transport_failure_wrapped_and_aborts (s : HRS3300) (d : Device) (e : Nat) :
    (∀ (D' E' : Type) (T : Transport D' E') (s' : HRS3300) (dd : D') (register : Register)
        (v : Nat) (err : E'), (T.write dd s'.address [register.addr, v]).2 = .error err →
        (HRS3300.write_register T s' dd register v).2 = .error (Error.Comm err)) ∧
    (∀ (D' E' : Type) (T : Transport D' E') (s' : HRS3300) (dd : D') (start : Register)
        (len : Nat) (err : E'),
        (T.write_read dd s'.address [start.addr] len).2 = .error err →
        (HRS3300.read_registers T s' dd start len).2 = .error (Error.Comm err)) ∧
    ((HRS3300.get_device_id (faultyT 0 e) s (d, 0)).2 = .error (Error.Comm e) ∧
      (HRS3300.get_device_id (faultyT 0 e) s (d, 0)).1.2 = 1) ∧
    (∀ res : AdcResolution,
      (HRS3300.set_adc_resolution (faultyT 0 e) s (d, 0) res).2.2 = .error (Error.Comm e) ∧
      (HRS3300.set_adc_resolution (faultyT 0 e) s (d, 0) res).2.1.2 = 1) ∧
    ((HRS3300.read_raw_sample (faultyT 0 e) s (d, 0)).2 = .error (Error.Comm e) ∧
      (HRS3300.read_raw_sample (faultyT 0 e) s (d, 0)).1.2 = 1) ∧
    ((HRS3300.sample_one (faultyT 0 e) s (d, 0)).2 = .error (Error.Comm e) ∧
      (HRS3300.sample_one (faultyT 0 e) s (d, 0)).1.2 = 1) ∧
    (∀ (en : Bool) (failAt : Nat), failAt < 2 →
      (HRS3300.enable (faultyT failAt e) s (d, 0) en).2 = .error (Error.Comm e) ∧
      (HRS3300.enable (faultyT failAt e) s (d, 0) en).1.2 = failAt + 1) ∧
    (d.regs 0 % 256 = 0x21 → ∀ failAt, failAt < 5 →
      (HRS3300.init (faultyT failAt e) s (d, 0)).2.2 = .error (Error.Comm e) ∧
      (HRS3300.init (faultyT failAt e) s (d, 0)).2.1.2 = failAt + 1) := by
  refine ⟨?_, ?_, ?_, ?_, ?_, ?_, ?_, ?_⟩
  · intro D' E' T s' dd register v err herr
    simp [HRS3300.write_register, herr, Except.mapError]
  · intro D' E' T s' dd start len err herr
    simp [HRS3300.read_registers, herr, Except.mapError]
  · refine ⟨?_, ?_⟩ <;>
      simp [HRS3300.get_device_id, HRS3300.read_register, HRS3300.read_registers,
        faultyT, Except.mapError, Except.map]
  · intro res
    refine ⟨?_, ?_⟩ <;>
      simp [HRS3300.set_adc_resolution, HRS3300.write_register, faultyT, Except.mapError]
  · refine ⟨?_, ?_⟩ <;>
      simp [HRS3300.read_raw_sample, HRS3300.read_sample_block, HRS3300.read_registers,
        faultyT, Except.mapError]
  · refine ⟨?_, ?_⟩ <;>
      simp [HRS3300.sample_one, HRS3300.read_raw_sample, HRS3300.read_sample_block,
        HRS3300.read_registers, faultyT, Except.mapError]
  · intro en failAt hf
    interval_cases failAt <;> cases en <;>
      refine ⟨?_, ?_⟩ <;>
        simp [HRS3300.enable, HRS3300.write_register, faultyT, Device.busWrite,
          Except.mapError]
  · intro h failAt hf
    interval_cases failAt <;>
      refine ⟨?_, ?_⟩ <;>
        simp [HRS3300.init, HRS3300.get_device_id, HRS3300.read_register,
          HRS3300.read_registers, HRS3300.write_register, HRS3300.set_adc_resolution,
          faultyT, Device.busRead, Device.busWrite, Except.mapError, Except.map,
          List.range_succ, Register.addr, HRS3300.DEFAULT_DEVICE_ID, h]

/-- Witness for C6 at concrete inputs. -/
theorem c6_transport_failure_witness :
    ((HRS3300.write_register (faultyT 0 7) HRS3300.defaultDrv (zeroDevice, 0)
        Register.HGAIN 0x10).2 = .error (Error.Comm 7)) ∧
    ((HRS3300.init (faultyT 3 7) HRS3300.defaultDrv (blockDevice [], 0)).2.2 =
      .error (Error.Comm 7)) :=
  ⟨(c6_transport_failure_wrapped_and_aborts HRS3300.defaultDrv zeroDevice 7).1
      (Device × Nat) Nat (faultyT 0 7) HRS3300.defaultDrv (zeroDevice, 0)
      Register.HGAIN 0x10 7 rfl,
   ((c6_transport_failure_wrapped_and_aborts HRS3300.defaultDrv (blockDevice []) 7).2.2.2.2.2.2.2
      (by decide) 3 (by decide)).1⟩

/-- C1: evaluation at the failing input.  For the sample block
`[0, 0, 0, 0, 0x40, 0, 0]` (C1DATAH byte = `0x40`, bit 6 set) under
18-bit resolution, the code's ambient assembly (`decode_c1`, which masks
byte 4 with `0x3F`) yields `0`, while the assembly the claim and the
code's own comment (`6:0 -> C1DATA[17:11]`) describe (`decode_c1_spec`,
masking with `0x7F`) yields `0x20000`; the full `read_raw_sample`
pipeline on a driver configured for 18 bits returns ambient `0`. -/
theorem c1_code_drops_ambient_bit17 :
    (decode_c1 [0, 0, 0, 0, 0x40, 0, 0] ((1 <<< (8 + AdcResolution.Bits18.code)) - 1) = 0) ∧
    (decode_c1_spec [0, 0, 0, 0, 0x40, 0, 0] ((1 <<< (8 + AdcResolution.Bits18.code)) - 1) =
      0x20000) ∧
    ((HRS3300.read_raw_sample okT
        (HRS3300.set_adc_resolution okT HRS3300.defaultDrv zeroDevice
          AdcResolution.Bits18).1
        (blockDevice [0, 0, 0, 0, 0x40, 0, 0])).2 = .ok (0, 0)) := by
  refine ⟨by decide, by decide, ?_⟩
  rfl

/-- Helper for C8: for any mask of the form `(1 <<< c) - 1` with `c ≤ 18`
and any block whose byte 1 is a `u8`, the masked C0 assembly has bits
17:16 clear and fits in 16 bits: the `(block[6] & 0x30) << 16` fragment
lands at bits 21:20 and is discarded by the mask. -/
theorem decode_c0_masked_bits (block : List Nat) (c : Nat)
    (hb : block.getD 1 0 < 256) (hc : c ≤ 18) :
    decode_c0 block ((1 <<< c) - 1) &&& 0x30000 = 0 ∧
    decode_c0 block ((1 <<< c) - 1) ≤ 0xFFFF := by
  set b1 := block.getD 1 0 with hb1
  set b2 := block.getD 2 0 with hb2
  set b6 := block.getD 6 0 with hb6
  have hraw : ∀ i, 16 ≤ i → i < 20 →
      Nat.testBit ((b1 <<< 8) ||| ((b2 &&& 0x0F) <<< 4) |||
        ((b6 &&& 0x30) <<< 16) ||| (b6 &&& 0x0F)) i = false := by
    intro i h16 h20
    simp only [Nat.testBit_or, Bool.or_eq_false_iff]
    refine ⟨⟨⟨?_, ?_⟩, ?_⟩, ?_⟩
    · rw [Nat.testBit_shiftLeft]
      have hlt : b1 < 2 ^ (i - 8) :=
        lt_of_lt_of_le hb (by
          calc (256:Nat) = 2 ^ 8 := by norm_num
          _ ≤ 2 ^ (i - 8) := Nat.pow_le_pow_right (by norm_num) (by omega))
      simp [Nat.testBit_lt_two_pow hlt]
    · rw [Nat.testBit_shiftLeft]
      have hlt : b2 &&& 0x0F < 2 ^ (i - 4) :=
        lt_of_lt_of_le (Nat.and_lt_two_pow b2 (show (0x0F:Nat) < 2 ^ 4 by norm_num))
          (Nat.pow_le_pow_right (by norm_num) (by omega))
      simp [Nat.testBit_lt_two_pow hlt]
    · rw [Nat.testBit_shiftLeft]
      have h48 : Nat.testBit (b6 &&& 0x30) (i - 16) = false := by
        rw [Nat.testBit_and]
        have : Nat.testBit 0x30 (i - 16) = false := by
          have hj : i - 16 < 4 := by omega
          interval_cases h : (i - 16) <;> decide
        simp [this]
      simp [h48]
    · have hlt : b6 &&& 0x0F < 2 ^ i :=
        lt_of_lt_of_le (Nat.and_lt_two_pow b6 (show (0x0F:Nat) < 2 ^ 4 by norm_num))
          (Nat.pow_le_pow_right (by norm_num) (by omega))
      exact Nat.testBit_lt_two_pow hlt
  have hfin : ∀ i, 16 ≤ i →
      Nat.testBit (decode_c0 block ((1 <<< c) - 1)) i = false := by
    intro i hi
    unfold decode_c0
    rw [← hb1, ← hb2, ← hb6]
    rw [Nat.testBit_and]
    by_cases h20 : i < 20
    · rw [hraw i hi h20]
      simp
    · have hmask : Nat.testBit ((1 <<< c) - 1) i = false := by
        rw [Nat.one_shiftLeft, Nat.testBit_two_pow_sub_one]
        simp
        omega
      simp [hmask]
  constructor
  · apply Nat.eq_of_testBit_eq
    intro i
    rw [Nat.testBit_and, Nat.zero_testBit]
    by_cases h16 : 16 ≤ i
    · rw [hfin i h16]
      simp
    · have hm : Nat.testBit 0x30000 i = false := by
        have h3 : (0x30000 : Nat) = 3 <<< 16 := by decide
        rw [h3, Nat.testBit_shiftLeft]
        simp [show ¬ (16 ≤ i) from h16]
      simp [hm]
  · have hlt : decode_c0 block ((1 <<< c) - 1) < 2 ^ 16 :=
      Nat.lt_pow_two_of_testBit _ (fun i hi => hfin i hi)
    have h2 : (2:Nat) ^ 16 = 65536 := by norm_num
    omega

/-- C8: with the driver state established by `set_adc_resolution` for any
resolution code 0–10, the reflectance value returned by `read_raw_sample`
has bits 17:16 equal to zero and never exceeds `0xFFFF`. -/
theorem c8_reflectance_high_bits_masked (s0 : HRS3300) (d0 : Device)
    (res : AdcResolution) (d : Device) (p : Nat × Nat)
    (h : (HRS3300.read_raw_sample okT
        ((HRS3300.set_adc_resolution okT s0 d0 res).1) d).2 = .ok p) :
    p.1 &&& 0x30000 = 0 ∧ p.1 ≤ 0xFFFF := by
  have hcode : res.code ≤ 10 := by cases res <;> decide
  have hpipe : (HRS3300.read_raw_sample okT
      ((HRS3300.set_adc_resolution okT s0 d0 res).1) d).2 =
      .ok (decode_c0
             ((List.range SAMPLE_BLOCK_LEN).map fun i =>
               d.regs (Register.C1DATAM.addr + i) % 256)
             ((1 <<< (8 + res.code)) - 1),
           decode_c1
             ((List.range SAMPLE_BLOCK_LEN).map fun i =>
               d.regs (Register.C1DATAM.addr + i) % 256)
             ((1 <<< (8 + res.code)) - 1)) := rfl
  rw [hpipe] at h
  have hp := (Except.ok.injEq _ _).mp h.symm
  have hp1 : p.1 = decode_c0
      ((List.range SAMPLE_BLOCK_LEN).map fun i =>
        d.regs (Register.C1DATAM.addr + i) % 256)
      ((1 <<< (8 + res.code)) - 1) := by
    rw [hp]
  rw [hp1]
  apply decode_c0_masked_bits
  · have : ((List.range SAMPLE_BLOCK_LEN).map fun i =>
        d.regs (Register.C1DATAM.addr + i) % 256).getD 1 0 =
        d.regs (Register.C1DATAM.addr + 1) % 256 := by
      simp [SAMPLE_BLOCK_LEN, List.range_succ]
    rw [this]
    exact Nat.mod_lt _ (by norm_num)
  · omega

/-- Witness for C8 at a concrete device and 18-bit resolution. -/
theorem c8_reflectance_high_bits_masked_witness :
    (0x1FF : Nat) &&& 0x30000 = 0 ∧ (0x1FF : Nat) ≤ 0xFFFF :=
  c8_reflectance_high_bits_masked HRS3300.defaultDrv zeroDevice AdcResolution.Bits18
    (blockDevice [0x00, 0x01, 0x0F, 0x00, 0x3F, 0x07, 0x3F]) (0x1FF, 0x1F807) rfl
